import Mathlib

/-!
# Verification of motion-canvas core behaviours

Shallow embedding of the parts of the `motion-canvas` repository that the
checked claims are about:

* `ImageExporter` (`src/packages/core/src/app/ImageExporter.ts`): backpressure,
  duplicate-frame rejection, cooperative cancellation, and the drain loop of
  `stop`.
* `Layout` (`src/packages/2d/src/lib/decorators/defaultStyle.ts`, which holds
  the `Layout` component): the size tween generators (`tweenWidth`,
  `tweenHeight`, `tweenSize`), the reference-counted size lock
  (`lockSize` / `releaseSize` / `sizeLockCounter`), `applyFlex`,
  `requestLayoutUpdate`, and `moveOffset`.
* `TxtLeaf` (`src/unnamed/part_000`): the greedy line-wrapping loop of `draw`
  and the `desiredLines` helper of `updateLayout`.

Numbers are modelled as rationals (JS numbers are used here only for exact
arithmetic on sizes and counters), sets of frame numbers as `Finset ℕ`, and
the asynchronous environment (acknowledgements arriving during `setTimeout`
waits, abort-signal observations) as explicit lists of observations.
-/

namespace MotionCanvas

/-! ## ImageExporter (`src/packages/core/src/app/ImageExporter.ts`) -/

def EXPORT_FRAME_LIMIT : ℕ := 256

def EXPORT_RETRY_DELAY : ℕ := 1000

/-- The `frameLookup` set: frame numbers currently being exported and awaiting
acknowledgement. -/
abbrev FrameSet := Finset ℕ

/-- Result of the backpressure loop in `handleFrame`:

```ts
while (this.frameLookup.size > EXPORT_FRAME_LIMIT) {
  await new Promise(resolve => setTimeout(resolve, EXPORT_RETRY_DELAY));
  if (signal.aborted) {
    return;
  }
}
```

`cancelled s` means the abort check after a wait fired while `frameLookup`
was `s`; `proceed s` means the loop exited with `frameLookup = s`;
`stillWaiting` means the supplied observation list ran out while the loop
was still retrying. -/
inductive WaitOutcome
  | cancelled (s : FrameSet)
  | stillWaiting
  | proceed (s : FrameSet)
deriving DecidableEq

/-- One observation per `EXPORT_RETRY_DELAY` wait: the state of `frameLookup`
once the wait elapses (acknowledgements may have removed frames in the
meantime) and whether `signal.aborted` is set at that point. -/
abbrev WaitEnv := List (FrameSet × Bool)

/-- The backpressure loop of `ImageExporter.handleFrame`, driven by the
observation list `env`. The loop tests `frameLookup.size > EXPORT_FRAME_LIMIT`,
sleeps, then checks the abort signal, in that order. -/
def backpressureLoop : FrameSet → WaitEnv → WaitOutcome
  | s, [] =>
      if EXPORT_FRAME_LIMIT < s.card then .stillWaiting else .proceed s
  | s, (s2, aborted) :: rest =>
      if EXPORT_FRAME_LIMIT < s.card then
        (if aborted then .cancelled s2 else backpressureLoop s2 rest)
      else .proceed s

/-- How a call to `handleFrame` ended, as far as its synchronous-plus-awaited
prefix is concerned. `accepted` means the frame number was added to
`frameLookup` and the asynchronous export body was spawned. -/
inductive HandleResult
  | duplicate
  | noHot
  | stillWaiting
  | cancelled
  | accepted
deriving DecidableEq

/-- Everything observable about one `handleFrame` call. -/
structure HandleOutput where
  result : HandleResult
  warnings : List String
  lookup : FrameSet
  spawned : Bool
deriving DecidableEq

/-- `ImageExporter.handleFrame(canvas, frame, signal)`. `hot` is the
`import.meta.hot` guard (true in the dev server); `env` drives the
backpressure waits. -/
def handleFrame (lookup : FrameSet) (frame : ℕ) (hot : Bool)
    (env : WaitEnv) : HandleOutput :=
  if frame ∈ lookup then
    { result := .duplicate
      warnings := [s!"Frame no. {frame} is already being exported."]
      lookup := lookup
      spawned := false }
  else if hot then
    match backpressureLoop lookup env with
    | .cancelled s2 =>
        { result := .cancelled, warnings := [], lookup := s2, spawned := false }
    | .stillWaiting =>
        { result := .stillWaiting, warnings := [], lookup := lookup
          spawned := false }
    | .proceed s2 =>
        { result := .accepted, warnings := []
          lookup := insert frame s2
          spawned := true }
  else
    { result := .noHot, warnings := [], lookup := lookup, spawned := false }

/-- Environment of the asynchronous export body spawned by `handleFrame`:
whether `canvas.toBlob` produced a blob, and the abort-signal observations at
the two checks (`if (signal.aborted) return;`) after blob creation and after
data-URL encoding. -/
structure ExportEnv where
  blobOk : Bool
  abortedAfterBlob : Bool
  abortedAfterData : Bool
deriving DecidableEq

/-- Outcome of the asynchronous export body. `errored` is the rejected-blob
path, handled by the trailing `.catch` (which deletes the frame and logs the
error); the two `cancelled` outcomes are plain `return`s. -/
inductive ExportOutcome
  | errored
  | cancelledAfterBlob
  | cancelledAfterData
  | sent
deriving DecidableEq

/-- The asynchronous body of `handleFrame`: create a blob, check the signal,
encode to a data URL, check the signal, then `import.meta.hot.send`. -/
def exportTask (e : ExportEnv) : ExportOutcome :=
  if !e.blobOk then .errored
  else if e.abortedAfterBlob then .cancelledAfterBlob
  else if e.abortedAfterData then .cancelledAfterData
  else .sent

/-- Effect of the asynchronous export body on `frameLookup`: only the
`.catch` handler removes the frame; cancellation and successful send leave it
in place (a send is removed later by the `export-ack` handler). -/
def exportTaskLookup (lookup : FrameSet) (frame : ℕ) (e : ExportEnv) :
    FrameSet :=
  match exportTask e with
  | .errored => lookup.erase frame
  | _ => lookup

/-- `RendererResult`, from `src/packages/core/src/app/Renderer.ts` (not part
of the sources; only the comparison against `Success` is used by
`ImageExporter.stop`). -/
inductive RendererResult
  | Success
  | Error
  | Aborted
deriving DecidableEq

/-- The drain loop of `ImageExporter.stop`:

```ts
while (this.frameLookup.size > 0) {
  await new Promise(resolve => setTimeout(resolve, EXPORT_RETRY_DELAY));
}
```

`env` lists the state of `frameLookup` observed after each wait. Returns the
number of waits performed and the state on exit, or `none` when the
observation list ran out with the set still nonempty. -/
def drainLoop : FrameSet → List FrameSet → Option (ℕ × FrameSet)
  | s, [] => if 0 < s.card then none else some (0, s)
  | s, s2 :: rest =>
      if 0 < s.card then
        (drainLoop s2 rest).map (fun p => (p.1 + 1, p.2))
      else some (0, s)

/-- `ImageExporter.stop(result)`: on `Success`, poll until `frameLookup` is
empty; in every case, clear `frameLookup` before returning. Returns the
number of polls and the final `frameLookup`, or `none` when the drain loop
never observed an empty set. -/
def stop (result : RendererResult) (s : FrameSet) (env : List FrameSet) :
    Option (ℕ × FrameSet) :=
  match result with
  | .Success => (drainLoop s env).map (fun p => (p.1, (∅ : FrameSet)))
  | _ => some (0, (∅ : FrameSet))

/-! ## Layout sizes and the size tweens
(`src/packages/2d/src/lib/decorators/defaultStyle.ts`, class `Layout`) -/

/-- `Length`: a desired length, `number` (pixels), `` `${number}%` ``
(percent), or `null` (automatic). -/
inductive Length
  | px (v : ℚ)
  | percent (v : ℚ)
  | auto
deriving DecidableEq

/-- `typeof l === 'number'`. -/
def Length.isNumber : Length → Bool
  | .px _ => true
  | _ => false

/-- The numeric value of a pixel length (only meaningful when `isNumber`). -/
def Length.num : Length → ℚ
  | .px v => v
  | .percent v => v
  | .auto => 0

/-- One observable step of a size tween generator, with `α` the type written
into the size signal (`Length` for `tweenWidth`/`tweenHeight`,
`Length × Length` for `tweenSize`):

* `readDesired` — the single `this.desiredSize()` read resolving the natural
  (declared) size;
* `write v` — a write to the size signal (`this.size.x(v)` / `this.size(v)`);
* `lock` — `this.lockSize()`;
* `release` — `this.releaseSize()`. -/
inductive TweenEvent (α : Type)
  | readDesired
  | write (v : α)
  | lock
  | release
deriving DecidableEq

/-- The lock condition of `tweenWidth` / `tweenHeight`:
`typeof width !== 'number' || typeof value !== 'number'`. -/
def sizeTweenLock (desired value : Length) : Bool :=
  !desired.isNumber || !value.isNumber

/-- Event trace of `Layout.tweenWidth(value, time, timingFunction,
interpolationFunction)`.

`desired` is `this.desiredSize().x`; `resolvedStart` is the value the
computed size `this.size.x()` yields at the start; `resolvedTo` is the value
`this.size.x()` yields right after `this.size.x(value)` is written;
`frames` are the progress values `tween` feeds the updater. -/
def tweenWidthTrace (desired value : Length) (resolvedStart resolvedTo : ℚ)
    (timingFunction : ℚ → ℚ) (interpolationFunction : ℚ → ℚ → ℚ → ℚ)
    (frames : List ℚ) : List (TweenEvent Length) :=
  let lock := sizeTweenLock desired value
  let from_ := if lock then resolvedStart else desired.num
  let to_ := if lock then resolvedTo else value.num
  [TweenEvent.readDesired] ++
    (if lock then [TweenEvent.write value] else []) ++
    [TweenEvent.write (.px from_)] ++
    (if lock then [TweenEvent.lock] else []) ++
    frames.map (fun t =>
      TweenEvent.write (.px (interpolationFunction from_ to_
        (timingFunction t)))) ++
    [TweenEvent.write value] ++
    (if lock then [TweenEvent.release] else [])

/-- Event trace of `Layout.tweenHeight`, identical in structure to
`tweenWidth` but acting on the `y` component. -/
def tweenHeightTrace (desired value : Length) (resolvedStart resolvedTo : ℚ)
    (timingFunction : ℚ → ℚ) (interpolationFunction : ℚ → ℚ → ℚ → ℚ)
    (frames : List ℚ) : List (TweenEvent Length) :=
  let lock := sizeTweenLock desired value
  let from_ := if lock then resolvedStart else desired.num
  let to_ := if lock then resolvedTo else value.num
  [TweenEvent.readDesired] ++
    (if lock then [TweenEvent.write value] else []) ++
    [TweenEvent.write (.px from_)] ++
    (if lock then [TweenEvent.lock] else []) ++
    frames.map (fun t =>
      TweenEvent.write (.px (interpolationFunction from_ to_
        (timingFunction t)))) ++
    [TweenEvent.write value] ++
    (if lock then [TweenEvent.release] else [])

/-- A pair of rationals standing for a `Vector2`. -/
abbrev Vec2Q := ℚ × ℚ

/-- Lift a resolved vector back into a pair of pixel lengths, as written by
`this.size(interpolationFunction(...))`. -/
def pxPair (v : Vec2Q) : Length × Length := (.px v.1, .px v.2)

/-- Event trace of `Layout.tweenSize(value, time, timingFunction,
interpolationFunction)`. The size signal holds a pair of lengths;
`desired` is `this.desiredSize()`; `resolvedStart` is `this.size()` at the
start; `resolvedTo` is `this.size()` right after `this.size(value)`.
Unlike `tweenWidth` / `tweenHeight`, the lock is taken unconditionally, and
the lock is released *before* the terminal write. -/
def tweenSizeTrace (desired value : Length × Length)
    (resolvedStart resolvedTo : Vec2Q)
    (timingFunction : ℚ → ℚ)
    (interpolationFunction : Vec2Q → Vec2Q → ℚ → Vec2Q)
    (frames : List ℚ) : List (TweenEvent (Length × Length)) :=
  let fromLiteral := desired.1.isNumber && desired.2.isNumber
  let from_ := if fromLiteral then (desired.1.num, desired.2.num)
    else resolvedStart
  let toLiteral := value.1.isNumber && value.2.isNumber
  let to_ := if toLiteral then (value.1.num, value.2.num) else resolvedTo
  [TweenEvent.readDesired] ++
    (if toLiteral then [] else [TweenEvent.write value]) ++
    [TweenEvent.write (pxPair from_)] ++
    [TweenEvent.lock] ++
    frames.map (fun t =>
      TweenEvent.write (pxPair (interpolationFunction from_ to_
        (timingFunction t)))) ++
    [TweenEvent.release] ++
    [TweenEvent.write value]

/-- Whether some `write` occurs strictly after the first `release` in a
trace. The claim under test asserts that every size tween releases the lock
and then writes the terminal value, which requires this to hold. -/
def writeAfterRelease {α : Type} [DecidableEq α]
    (tr : List (TweenEvent α)) : Bool :=
  ((tr.dropWhile (fun e => decide (e ≠ TweenEvent.release))).drop 1).any
    (fun e => match e with | TweenEvent.write _ => true | _ => false)

/-- `lockSize()` adds one to `sizeLockCounter`, `releaseSize()` subtracts
one; every other step leaves it unchanged. -/
def lockDelta {α : Type} : TweenEvent α → ℤ
  | .lock => 1
  | .release => -1
  | _ => 0

/-- Run the `sizeLockCounter` signal through a trace of tween events,
starting from `c`. -/
def runLockCounter {α : Type} (c : ℤ) (tr : List (TweenEvent α)) : ℤ :=
  tr.foldl (fun acc e => acc + lockDelta e) c

/-- Number of `lockSize()` calls in a trace. -/
def countLocks {α : Type} (tr : List (TweenEvent α)) : ℕ :=
  (tr.filter (fun e =>
    match e with | TweenEvent.lock => true | _ => false)).length

/-- Number of `releaseSize()` calls in a trace. -/
def countReleases {α : Type} (tr : List (TweenEvent α)) : ℕ :=
  (tr.filter (fun e =>
    match e with | TweenEvent.release => true | _ => false)).length

/-! ## `Layout.applyFlex` -/

/-- `FlexDirection`. -/
inductive FlexDirection
  | row
  | rowReverse
  | column
  | columnReverse
deriving DecidableEq

/-- `FlexWrap`. -/
inductive FlexWrap
  | nowrap
  | wrap
  | wrapReverse
deriving DecidableEq

/-- `FlexContent` (values switched on by `applyFlex`, plus the initial
`'normal'`). -/
inductive FlexContent
  | normal
  | center
  | start
  | end_
  | spaceBetween
  | spaceAround
  | spaceEvenly
  | stretch
deriving DecidableEq

/-- `FlexItems` (values switched on by `applyFlex`, plus the initial
`'auto'` of `alignSelf`). -/
inductive FlexItems
  | auto
  | center
  | start
  | end_
  | stretch
  | baseline
deriving DecidableEq

/-- Yoga position types used by `applyFlex`. -/
inductive YogaPositionType
  | relative
  | absolute
deriving DecidableEq

/-- Yoga flex directions. -/
inductive YogaFlexDirection
  | row
  | rowReverse
  | column
  | columnReverse
deriving DecidableEq

/-- Yoga wrap modes. -/
inductive YogaWrap
  | noWrap
  | wrap
  | wrapReverse
deriving DecidableEq

/-- Yoga justify values. -/
inductive YogaJustify
  | flexStart
  | center
  | flexEnd
  | spaceBetween
  | spaceAround
  | spaceEvenly
deriving DecidableEq

/-- Yoga align values. -/
inductive YogaAlign
  | flexStart
  | center
  | flexEnd
  | stretch
  | baseline
  | spaceBetween
  | spaceAround
  | spaceEvenly
deriving DecidableEq

/-- Margin or padding, as read through the spacing signal. -/
structure Spacing where
  top : ℚ
  bottom : ℚ
  left : ℚ
  right : ℚ
deriving DecidableEq

/-- The signal values `applyFlex` reads on a `Layout` node. -/
structure FlexState where
  isLayoutRootB : Bool
  desired : Length × Length
  minWidth : Length
  maxWidth : Length
  minHeight : Length
  maxHeight : Length
  ratioValue : Option ℚ
  margin : Spacing
  padding : Spacing
  direction : FlexDirection
  basis : Length
  wrap : FlexWrap
  justifyContent : FlexContent
  alignContent : FlexContent
  alignItems : FlexItems
  alignSelf : FlexItems
  gap : Vec2Q
  grow : ℚ
  shrink : ℚ
  sizeLockCounter : ℤ

/-- `l ?? undefined`: an automatic length becomes `undefined`. -/
def Length.toYoga : Length → Option Length
  | .auto => none
  | l => some l

/-- The `direction` switch of `applyFlex` (total). -/
def yogaFlexDirection : FlexDirection → YogaFlexDirection
  | .row => .row
  | .rowReverse => .rowReverse
  | .column => .column
  | .columnReverse => .columnReverse

/-- The `wrap` switch of `applyFlex` (total). -/
def yogaWrap : FlexWrap → YogaWrap
  | .nowrap => .noWrap
  | .wrap => .wrap
  | .wrapReverse => .wrapReverse

/-- The `justifyContent` switch of `applyFlex`; values without a case
(`normal`, `stretch`) fall through and leave the Yoga default in place. -/
def yogaJustify : FlexContent → Option YogaJustify
  | .center => some .center
  | .start => some .flexStart
  | .end_ => some .flexEnd
  | .spaceBetween => some .spaceBetween
  | .spaceAround => some .spaceAround
  | .spaceEvenly => some .spaceEvenly
  | _ => none

/-- The `alignContent` switch of `applyFlex`; `normal` falls through. -/
def yogaAlignContent : FlexContent → Option YogaAlign
  | .center => some .center
  | .start => some .flexStart
  | .end_ => some .flexEnd
  | .spaceBetween => some .spaceBetween
  | .spaceAround => some .spaceAround
  | .spaceEvenly => some .spaceEvenly
  | .stretch => some .stretch
  | .normal => none

/-- The `alignItems` / `alignSelf` switch of `applyFlex`; `auto` falls
through. -/
def yogaAlignItems : FlexItems → Option YogaAlign
  | .center => some .center
  | .start => some .flexStart
  | .end_ => some .flexEnd
  | .stretch => some .stretch
  | .baseline => some .baseline
  | .auto => none

/-- Everything `applyFlex` writes into the Yoga node. An `Option` field is
`none` when the corresponding setter receives `undefined` or the switch has
no matching case, leaving the Yoga default untouched. -/
structure YogaSettings where
  positionType : YogaPositionType
  width : Option Length
  height : Option Length
  minWidth : Option Length
  maxWidth : Option Length
  minHeight : Option Length
  maxHeight : Option Length
  aspectRatio : Option ℚ
  margin : Spacing
  padding : Spacing
  flexDirection : YogaFlexDirection
  flexBasis : Option Length
  flexWrap : YogaWrap
  justifyContent : Option YogaJustify
  alignContent : Option YogaAlign
  alignItems : Option YogaAlign
  alignSelf : Option YogaAlign
  gapColumn : ℚ
  gapRow : ℚ
  flexGrow : ℚ
  flexShrink : ℚ

/-- `Layout.applyFlex()`: push the node's declared box-model signals into the
Yoga node. While `sizeLockCounter() > 0`, flex grow and shrink are forced to
`0`; otherwise the declared `grow()` / `shrink()` factors are applied. -/
def applyFlex (s : FlexState) : YogaSettings where
  positionType := if s.isLayoutRootB then .absolute else .relative
  width := s.desired.1.toYoga
  height := s.desired.2.toYoga
  minWidth := s.minWidth.toYoga
  maxWidth := s.maxWidth.toYoga
  minHeight := s.minHeight.toYoga
  maxHeight := s.maxHeight.toYoga
  aspectRatio := s.ratioValue
  margin := s.margin
  padding := s.padding
  flexDirection := yogaFlexDirection s.direction
  flexBasis := s.basis.toYoga
  flexWrap := yogaWrap s.wrap
  justifyContent := yogaJustify s.justifyContent
  alignContent := yogaAlignContent s.alignContent
  alignItems := yogaAlignItems s.alignItems
  alignSelf := yogaAlignItems s.alignSelf
  gapColumn := s.gap.1
  gapRow := s.gap.2
  flexGrow := if 0 < s.sizeLockCounter then 0 else s.grow
  flexShrink := if 0 < s.sizeLockCounter then 0 else s.shrink

/-! ## `Layout.requestLayoutUpdate` and the computed cache -/

/-- The `layout` signal of a node: `true` / `false` / `null` (inherit). A
node's ancestor chain of `Layout` transforms is a list of these, the node
itself first, the outermost `Layout` last. -/
abbrev LayoutChain := List (Option Bool)

/-- `Layout.layoutEnabled()`:
`this.layout() ?? this.parentTransform()?.layoutEnabled() ?? false`. -/
def layoutEnabled : LayoutChain → Bool
  | [] => false
  | m :: rest => m.getD (layoutEnabled rest)

/-- `Layout.isLayoutRoot()`:
`!this.layoutEnabled() || !this.parentTransform()?.layoutEnabled()`; with no
parent transform the second disjunct is `!undefined`, i.e. `true`. -/
def isLayoutRoot (self : Option Bool) (ancestors : LayoutChain) : Bool :=
  !layoutEnabled (self :: ancestors) ||
    (match ancestors with
     | [] => true
     | _ :: _ => !layoutEnabled ancestors)

/-- Observable steps of `requestLayoutUpdate`, tagged with the depth (in
`parentTransform` hops from the requesting node) at which they happen. -/
inductive LayoutUpdateEvent
  | fontUpdate (depth : ℕ)
  | updateLayout (depth : ℕ)
  | calculateLayout (depth : ℕ)
deriving DecidableEq

/-- `Layout.requestLayoutUpdate()` along an ancestor chain: at a node where
`appendedToView()` holds (which returns `isLayoutRoot()`), run the parent's
font update, apply this subtree's layout changes, and invoke the external
Yoga solver (`this.yoga.calculateLayout(...)`); otherwise delegate to
`parent!.requestLayoutUpdate()`. `d` is the depth of the current node
relative to the original requester. -/
def requestLayoutUpdateAux : LayoutChain → ℕ → List LayoutUpdateEvent
  | [], _ => []
  | m :: rest, d =>
      if isLayoutRoot m rest then
        (match rest with
         | [] => []
         | _ :: _ => [LayoutUpdateEvent.fontUpdate (d + 1)]) ++
          [LayoutUpdateEvent.updateLayout d, LayoutUpdateEvent.calculateLayout d]
      else requestLayoutUpdateAux rest (d + 1)

/-- A layout-update request starting at the node itself. -/
def requestLayoutUpdate (chain : LayoutChain) : List LayoutUpdateEvent :=
  requestLayoutUpdateAux chain 0

/-- Depth of the nearest layout root along the chain. -/
def nearestRootDepth : LayoutChain → ℕ
  | [] => 0
  | m :: rest => if isLayoutRoot m rest then 0 else nearestRootDepth rest + 1

/-- Number of external solver invocations in a request trace. -/
def solverCalls (evts : List LayoutUpdateEvent) : ℕ :=
  (evts.filter (fun e =>
    match e with | LayoutUpdateEvent.calculateLayout _ => true
                 | _ => false)).length

/-- A read of a `@computed()` cell: return the cache when present, otherwise
run the derivation once and cache the result. The third component counts
derivation invocations. -/
def readComputed {α : Type} (cache : Option α) (derive : α) :
    α × Option α × ℕ :=
  match cache with
  | some v => (v, some v, 0)
  | none => (derive, some derive, 1)

/-! ## `Layout.moveOffset` -/

def vAdd (a b : Vec2Q) : Vec2Q := (a.1 + b.1, a.2 + b.2)

def vSub (a b : Vec2Q) : Vec2Q := (a.1 - b.1, a.2 - b.2)

/-- Componentwise product, `Vector2.mul`. -/
def vMul (a b : Vec2Q) : Vec2Q := (a.1 * b.1, a.2 * b.2)

/-- Scalar product, `Vector2.scale`. -/
def vScale (k : ℚ) (a : Vec2Q) : Vec2Q := (k * a.1, k * a.2)

/-- The signals `moveOffset` touches on a `Layout` node: the `position` and
`offset` signals and the resolved `computedSize()`. -/
structure MoveState where
  position : Vec2Q
  offset : Vec2Q
  computedSize : Vec2Q
deriving DecidableEq

/-- `Layout.moveOffset(offset)`: update the offset signal and adjust the
position signal to keep the node in the same place. -/
def moveOffset (st : MoveState) (offset : Vec2Q) : MoveState :=
  let size := vScale (1 / 2) st.computedSize
  let oldOffset := vMul st.offset size
  let newOffset := vMul offset size
  { st with
      offset := offset
      position := vSub (vAdd st.position newOffset) oldOffset }

/-- The translation component of `localToParent()` for an unrotated, unscaled
node: the position, shifted by `size().mul(offset).scale(-0.5)` when the
offset is nonzero. This is where the node's origin-adjusted box lands in
parent space. -/
def renderedOrigin (st : MoveState) : Vec2Q :=
  if st.offset = ((0 : ℚ), (0 : ℚ)) then st.position
  else vAdd st.position (vScale (-(1 / 2)) (vMul st.computedSize st.offset))

/-! ## `TxtLeaf` line wrapping (`src/unnamed/part_000`) -/

/-- One measured text node: the grapheme (or character) and its measured
width. -/
structure TextNode where
  content : String
  width : ℚ

/-- The mutable state of the line-wrapping loop in `TxtLeaf.draw`:
`lineRect.x`, `lineRect.y`, `lineRect.width`, the pending `content` string,
the `drawText` calls issued so far (text with the `lineRect` box at call
time), and — as instrumentation — the number of times the loop wrapped to a
new line. -/
structure DrawState where
  x : ℚ
  y : ℚ
  w : ℚ
  content : String
  drawn : List (String × ℚ × ℚ × ℚ)
  wraps : ℕ

/-- One iteration of the loop in `TxtLeaf.draw` over a text node. -/
def drawStep (maxWidth lineHeight : ℚ) (s : DrawState) (n : TextNode) :
    DrawState :=
  let s :=
    if maxWidth < s.x + s.w + n.width then
      { s with x := 0, y := s.y + lineHeight, wraps := s.wraps + 1 }
    else s
  let s := { s with w := s.w + n.width }
  if n.content = " " then
    { s with
        drawn := s.drawn ++ [(s.content, s.x, s.y, s.w)]
        content := ""
        x := s.x + s.w
        w := 0 }
  else { s with content := s.content ++ n.content }

/-- The whole wrapping loop of `TxtLeaf.draw`, including the trailing
`drawText` for a nonempty pending `content`. -/
def drawRun (nodes : List TextNode) (maxWidth lineHeight : ℚ) : DrawState :=
  let s := nodes.foldl (drawStep maxWidth lineHeight)
    { x := 0, y := 0, w := 0, content := "", drawn := [], wraps := 0 }
  if s.content ≠ "" then
    { s with drawn := s.drawn ++ [(s.content, s.x, s.y, s.w)] }
  else s

/-- Number of lines produced by `TxtLeaf.draw`: one more than the number of
wraps. -/
def drawLines (nodes : List TextNode) (maxWidth lineHeight : ℚ) : ℕ :=
  (drawRun nodes maxWidth lineHeight).wraps + 1

/-- One iteration of the `desiredLines` closure in `TxtLeaf.updateLayout`;
the state is `(x, width, lines)`. -/
def desiredLinesStep (maxWidth : ℚ) (s : ℚ × ℚ × ℕ) (n : TextNode) :
    ℚ × ℚ × ℕ :=
  let s := if maxWidth < s.1 + s.2.1 + n.width then ((0 : ℚ), s.2.1, s.2.2 + 1)
    else s
  let s := (s.1, s.2.1 + n.width, s.2.2)
  if n.content = " " then (s.1 + s.2.1, 0, s.2.2) else s

/-- The `desiredLines` function `TxtLeaf.updateLayout` hands to the Yoga
measure callback. -/
def desiredLines (nodes : List TextNode) (maxWidth : ℚ) : ℕ :=
  (nodes.foldl (desiredLinesStep maxWidth) ((0 : ℚ), (0 : ℚ), 1)).2.2

/-! ## Theorems about `ImageExporter` -/

/-- C5 (amended): when the in-flight count exceeds `EXPORT_FRAME_LIMIT`,
`handleFrame` retries after fixed delays, indefinitely while the ceiling
stays exceeded and no abort arrives; a count that does not exceed the ceiling
is accepted without waiting; and a frame is accepted exactly when the
observed in-flight count no longer exceeds the ceiling (at most 256 — not
necessarily strictly below it), at which point the frame number is added and
the export body spawned. -/
theorem handleFrame_backpressure :
    (∀ (s : FrameSet) (env : WaitEnv), s.card ≤ EXPORT_FRAME_LIMIT →
      backpressureLoop s env = .proceed s) ∧
    (∀ (s : FrameSet) (env : WaitEnv) (s' : FrameSet),
      backpressureLoop s env = .proceed s' →
      s'.card ≤ EXPORT_FRAME_LIMIT) ∧
    (∀ (s : FrameSet) (env : WaitEnv), EXPORT_FRAME_LIMIT < s.card →
      (∀ p ∈ env, EXPORT_FRAME_LIMIT < p.1.card ∧ p.2 = false) →
      backpressureLoop s env = .stillWaiting) ∧
    (∀ (lookup : FrameSet) (frame : ℕ) (env : WaitEnv) (s' : FrameSet),
      frame ∉ lookup → backpressureLoop lookup env = .proceed s' →
      handleFrame lookup frame true env =
        { result := .accepted, warnings := [], lookup := insert frame s'
          spawned := true }) := by
  refine ⟨?_, ?_, ?_, ?_⟩
  · intro s env h
    cases env with
    | nil => simp [backpressureLoop, Nat.not_lt.mpr h]
    | cons p rest => simp [backpressureLoop, Nat.not_lt.mpr h]
  · intro s env
    induction env generalizing s with
    | nil =>
        intro s' h
        by_cases hc : EXPORT_FRAME_LIMIT < s.card
        · simp [backpressureLoop, hc] at h
        · simp [backpressureLoop, hc] at h
          simpa [← h] using Nat.not_lt.mp hc
    | cons p rest ih =>
        intro s' h
        by_cases hc : EXPORT_FRAME_LIMIT < s.card
        · by_cases ha : p.2
          · simp [backpressureLoop, hc, ha] at h
          · simp only [backpressureLoop, if_pos hc, if_neg ha] at h
            exact ih p.1 s' h
        · simp [backpressureLoop, hc] at h
          simpa [← h] using Nat.not_lt.mp hc
  · intro s env
    induction env generalizing s with
    | nil => intro h _; simp [backpressureLoop, h]
    | cons p rest ih =>
        intro h hall
        have hp := hall p (List.mem_cons_self p rest)
        have hstep : backpressureLoop s (p :: rest) = backpressureLoop p.1 rest := by
          obtain ⟨s2, ab⟩ := p
          simp only at hp
          simp [backpressureLoop, h, hp.2]
        rw [hstep]
        exact ih p.1 hp.1 (fun q hq => hall q (List.mem_cons_of_mem p hq))
  · intro lookup frame env s' hmem hbp
    simp [handleFrame, hmem, hbp]

/-- C5 witness: with an empty in-flight set, a frame is accepted without any
retry wait. -/
theorem handleFrame_backpressure_witness :
    handleFrame (∅ : FrameSet) 7 true [] =
      { result := .accepted, warnings := [], lookup := {7}
        spawned := true } := by
  have h := handleFrame_backpressure.2.2.2 ∅ 7 [] ∅
    (by simp)
    (handleFrame_backpressure.1 ∅ [] (by simp [EXPORT_FRAME_LIMIT]))
  simpa using h

/-- C5 counterexample: the claim says a new frame is accepted only once
acknowledgments reduce the in-flight count strictly below the ceiling. With
the in-flight count exactly equal to `EXPORT_FRAME_LIMIT = 256` — never
below it — `handleFrame` accepts a new frame immediately, with no wait. -/
theorem handleFrame_accepts_at_ceiling :
    (Finset.range 256).card = EXPORT_FRAME_LIMIT ∧
    ¬(Finset.range 256).card < EXPORT_FRAME_LIMIT ∧
    handleFrame (Finset.range 256) 999 true [] =
      { result := .accepted, warnings := []
        lookup := insert 999 (Finset.range 256), spawned := true } := by
  refine ⟨by simp [EXPORT_FRAME_LIMIT], by simp [EXPORT_FRAME_LIMIT], ?_⟩
  simp [handleFrame, backpressureLoop, EXPORT_FRAME_LIMIT, Finset.mem_range]

/-- C6: a `handleFrame` call for a frame number already in the in-flight set
logs a warning and returns with the set unchanged, without spawning an
export. -/
theorem handleFrame_duplicate_rejected (lookup : FrameSet) (frame : ℕ)
    (hot : Bool) (env : WaitEnv) (h : frame ∈ lookup) :
    handleFrame lookup frame hot env =
      { result := .duplicate
        warnings := [s!"Frame no. {frame} is already being exported."]
        lookup := lookup
        spawned := false } := by
  simp [handleFrame, h]

/-- C6 witness: resubmitting frame 5 while it is in flight. -/
theorem handleFrame_duplicate_rejected_witness :
    handleFrame ({5} : FrameSet) 5 true [] =
      { result := .duplicate
        warnings := ["Frame no. 5 is already being exported."]
        lookup := ({5} : FrameSet)
        spawned := false } :=
  handleFrame_duplicate_rejected {5} 5 true [] (by simp)

/-- C7: the abort signal is checked after each backpressure wait, after blob
creation, and after data-URL encoding; in each case an aborted signal makes
the call return normally — no error path is taken, nothing is sent, the
in-flight set is not modified by the cancelled body. -/
theorem handleFrame_cancellation :
    (∀ (s s2 : FrameSet) (rest : WaitEnv), EXPORT_FRAME_LIMIT < s.card →
      backpressureLoop s ((s2, true) :: rest) = .cancelled s2) ∧
    (∀ (lookup : FrameSet) (frame : ℕ) (env : WaitEnv) (s2 : FrameSet),
      frame ∉ lookup → backpressureLoop lookup env = .cancelled s2 →
      handleFrame lookup frame true env =
        { result := .cancelled, warnings := [], lookup := s2
          spawned := false }) ∧
    (∀ (e : ExportEnv) (lookup : FrameSet) (frame : ℕ),
      e.blobOk = true → e.abortedAfterBlob = true →
      exportTask e = .cancelledAfterBlob ∧
        exportTaskLookup lookup frame e = lookup) ∧
    (∀ (e : ExportEnv) (lookup : FrameSet) (frame : ℕ),
      e.blobOk = true → e.abortedAfterBlob = false →
      e.abortedAfterData = true →
      exportTask e = .cancelledAfterData ∧
        exportTaskLookup lookup frame e = lookup) := by
  refine ⟨?_, ?_, ?_, ?_⟩
  · intro s s2 rest h
    simp [backpressureLoop, h]
  · intro lookup frame env s2 hmem hbp
    simp [handleFrame, hmem, hbp]
  · intro e lookup frame hb ha
    have he : exportTask e = .cancelledAfterBlob := by
      simp [exportTask, hb, ha]
    exact ⟨he, by simp [exportTaskLookup, he]⟩
  · intro e lookup frame hb ha hd
    have he : exportTask e = .cancelledAfterData := by
      simp [exportTask, hb, ha, hd]
    exact ⟨he, by simp [exportTaskLookup, he]⟩

/-- C7 witness: an abort arriving right after the first backpressure wait,
and aborts at both post-hand-off checks of the export body, each end in a
normal cancelled return. -/
theorem handleFrame_cancellation_witness :
    backpressureLoop (Finset.range 257) [(Finset.range 257, true)] =
      .cancelled (Finset.range 257) ∧
    (exportTask ⟨true, true, false⟩ = .cancelledAfterBlob ∧
      exportTaskLookup ({3} : FrameSet) 3 ⟨true, true, false⟩ = {3}) ∧
    (exportTask ⟨true, false, true⟩ = .cancelledAfterData ∧
      exportTaskLookup ({3} : FrameSet) 3 ⟨true, false, true⟩ = {3}) :=
  ⟨handleFrame_cancellation.1 (Finset.range 257) (Finset.range 257) []
      (by simp [EXPORT_FRAME_LIMIT]),
    handleFrame_cancellation.2.2.1 ⟨true, true, false⟩ {3} 3 rfl rfl,
    handleFrame_cancellation.2.2.2 ⟨true, false, true⟩ {3} 3 rfl rfl rfl⟩

/-- C8: on `Success`, `stop` polls until the in-flight set is observed empty
— every state observed before the final poll is nonempty — and whenever
`stop` returns, the in-flight set it leaves behind is empty. Any other
result returns at once with the set cleared. -/
theorem stop_drains :
    (∀ (result : RendererResult) (s : FrameSet) (env : List FrameSet)
      (k : ℕ) (t : FrameSet), stop result s env = some (k, t) → t = ∅) ∧
    (∀ (s : FrameSet) (env : List FrameSet) (k : ℕ) (t : FrameSet),
      drainLoop s env = some (k, t) →
      t = ∅ ∧ ∀ i < k, ((s :: env).getD i ∅) ≠ ∅) ∧
    (∀ (result : RendererResult) (s : FrameSet) (env : List FrameSet),
      result ≠ .Success → stop result s env = some (0, ∅)) := by
  have hdrain : ∀ (env : List FrameSet) (s : FrameSet) (k : ℕ) (t : FrameSet),
      drainLoop s env = some (k, t) →
      t = ∅ ∧ ∀ i < k, ((s :: env).getD i ∅) ≠ ∅ := by
    intro env
    induction env with
    | nil =>
        intro s k t h
        by_cases hc : 0 < s.card
        · simp [drainLoop, hc] at h
        · simp [drainLoop, hc] at h
          have hs : s = ∅ := Finset.card_eq_zero.mp (Nat.eq_zero_of_not_pos hc)
          exact ⟨h.2 ▸ hs, by omega⟩
    | cons s2 rest ih =>
        intro s k t h
        by_cases hc : 0 < s.card
        · simp only [drainLoop, if_pos hc, Option.map_eq_some'] at h
          obtain ⟨⟨k', t'⟩, hrec, heq⟩ := h
          obtain ⟨ht', hprev⟩ := ih s2 k' t' hrec
          have hk : k = k' + 1 := by
            have := congrArg Prod.fst heq
            simpa using this.symm
          have ht : t = t' := by
            have := congrArg Prod.snd heq
            simpa using this.symm
          subst hk ht
          refine ⟨ht', ?_⟩
          intro i hi
          match i with
          | 0 =>
              simp only [List.getD_cons_zero]
              exact fun he => by simp [he] at hc
          | j + 1 =>
              simpa using hprev j (by omega)
        · simp [drainLoop, hc] at h
          have hs : s = ∅ := Finset.card_eq_zero.mp (Nat.eq_zero_of_not_pos hc)
          exact ⟨h.2 ▸ hs, by omega⟩
  refine ⟨?_, fun s env k t h => hdrain env s k t h, ?_⟩
  · intro result s env k t h
    cases result with
    | Success =>
        simp only [stop, Option.map_eq_some'] at h
        obtain ⟨p, _, heq⟩ := h
        have := congrArg Prod.snd heq
        simpa using this.symm
    | Error =>
        simpa [stop] using (congrArg Prod.snd (Option.some_injective _ h)).symm
    | Aborted =>
        simpa [stop] using (congrArg Prod.snd (Option.some_injective _ h)).symm
  · intro result s env h
    cases result with
    | Success => exact absurd rfl h
    | Error => simp [stop]
    | Aborted => simp [stop]

/-- C8 witness: draining `{3}` with one acknowledgment batch emptying the
set: one poll, all pre-poll observations nonempty, and the set empty after
`stop`. -/
theorem stop_drains_witness :
    ((∅ : FrameSet) = ∅ ∧ ∀ i < 1, ((({3} : FrameSet) :: [∅]).getD i ∅) ≠ ∅) ∧
    stop .Aborted ({3} : FrameSet) [] = some (0, ∅) :=
  ⟨stop_drains.2.1 {3} [∅] 1 ∅ (by decide), stop_drains.2.2 .Aborted {3} []
    (by simp)⟩

/-! ## Theorems about the size tweens and the size lock -/

/-- `runLockCounter` is the start value plus the sum of the per-event
deltas. -/
theorem runLockCounter_eq {α : Type} (c : ℤ) (tr : List (TweenEvent α)) :
    runLockCounter c tr = c + (tr.map lockDelta).sum := by
  induction tr generalizing c with
  | nil => simp [runLockCounter]
  | cons e tr ih =>
      simp only [runLockCounter, List.foldl_cons] at *
      rw [ih (c + lockDelta e)]
      simp [List.sum_cons]
      ring

/-- The interpolation writes of a tween contribute nothing to the lock
counter. -/
theorem sum_lockDelta_writes {α : Type} (frames : List ℚ)
    (g : ℚ → α) :
    (frames.map (lockDelta ∘ fun t => TweenEvent.write (g t))).sum = 0 := by
  apply List.sum_eq_zero
  intro x hx
  obtain ⟨t, _, rfl⟩ := List.mem_map.mp hx
  rfl

/-- C1 (counterexample): the claim asserts that every size tween releases the
lock and then writes the terminal value, uniformly across `tweenWidth`,
`tweenHeight`, and `tweenSize`. At a concrete auto-width tween, `tweenWidth`
performs no write after its (single) release — the terminal write comes
first — while at a concrete auto-size tween `tweenSize` does write after the
release, so the claimed uniform release-before-write order is false. -/
theorem tween_release_order_cex :
    tweenWidthTrace .auto (.px 100) 50 100 (fun t => t)
        (fun _ b _ => b) [1] =
      [.readDesired, .write (.px 100), .write (.px 50), .lock,
        .write (.px 100), .write (.px 100), .release] ∧
    countReleases (tweenWidthTrace .auto (.px 100) 50 100 (fun t => t)
        (fun _ b _ => b) [1]) = 1 ∧
    writeAfterRelease (tweenWidthTrace .auto (.px 100) 50 100 (fun t => t)
        (fun _ b _ => b) [1]) = false ∧
    tweenSizeTrace (.auto, .auto) (.px 100, .px 100) (50, 50) (100, 100)
        (fun t => t) (fun _ b _ => b) [1] =
      [.readDesired, .write (.px 50, .px 50), .lock,
        .write (.px 100, .px 100), .release, .write (.px 100, .px 100)] ∧
    writeAfterRelease (tweenSizeTrace (.auto, .auto) (.px 100, .px 100)
        (50, 50) (100, 100) (fun t => t) (fun _ b _ => b) [1]) = true := by
  exact ⟨rfl, rfl, rfl, rfl, rfl⟩

/-- C1 (amended): a size tween on a cell needing the lock resolves the
natural size once up front, writes the resolved start, takes the lock, holds
it across every interpolation frame, and after the final frame `tweenWidth`
and `tweenHeight` write the terminal value and then release the lock, while
`tweenSize` — for a derived natural size and either a derived or a literal
numeric target — releases the lock and then writes the terminal value. -/
theorem tween_lock_terminal_order :
    (∀ (desired value : Length) (rs rt : ℚ) (tf : ℚ → ℚ)
        (f : ℚ → ℚ → ℚ → ℚ) (frames : List ℚ),
      sizeTweenLock desired value = true →
      tweenWidthTrace desired value rs rt tf f frames =
        [.readDesired, .write value, .write (.px rs), .lock] ++
          frames.map (fun t => .write (.px (f rs rt (tf t)))) ++
          [.write value, .release]) ∧
    (∀ (desired value : Length) (rs rt : ℚ) (tf : ℚ → ℚ)
        (f : ℚ → ℚ → ℚ → ℚ) (frames : List ℚ),
      sizeTweenLock desired value = true →
      tweenHeightTrace desired value rs rt tf f frames =
        [.readDesired, .write value, .write (.px rs), .lock] ++
          frames.map (fun t => .write (.px (f rs rt (tf t)))) ++
          [.write value, .release]) ∧
    (∀ (desired value : Length × Length) (rs rt : Vec2Q) (tf : ℚ → ℚ)
        (f : Vec2Q → Vec2Q → ℚ → Vec2Q) (frames : List ℚ),
      (desired.1.isNumber && desired.2.isNumber) = false →
      (value.1.isNumber && value.2.isNumber) = false →
      tweenSizeTrace desired value rs rt tf f frames =
        [.readDesired, .write value, .write (pxPair rs), .lock] ++
          frames.map (fun t => .write (pxPair (f rs rt (tf t)))) ++
          [.release, .write value]) ∧
    (∀ (desired value : Length × Length) (rs rt : Vec2Q) (tf : ℚ → ℚ)
        (f : Vec2Q → Vec2Q → ℚ → Vec2Q) (frames : List ℚ),
      (desired.1.isNumber && desired.2.isNumber) = false →
      (value.1.isNumber && value.2.isNumber) = true →
      tweenSizeTrace desired value rs rt tf f frames =
        [.readDesired, .write (pxPair rs), .lock] ++
          frames.map (fun t =>
            .write (pxPair (f rs (value.1.num, value.2.num) (tf t)))) ++
          [.release, .write value]) := by
  refine ⟨?_, ?_, ?_, ?_⟩
  · intro desired value rs rt tf f frames h
    simp [tweenWidthTrace, h]
  · intro desired value rs rt tf f frames h
    simp [tweenHeightTrace, h]
  · intro desired value rs rt tf f frames hd hv
    simp [tweenSizeTrace, hd, hv]
  · intro desired value rs rt tf f frames hd hv
    simp [tweenSizeTrace, hd, hv]

/-- C1 witness: the amended ordering at a zero-frame auto-width tween, at an
auto-size tween towards a derived target, and at a one-frame auto-size tween
towards a literal numeric target. -/
theorem tween_lock_terminal_order_witness :
    tweenWidthTrace .auto (.px 2) 1 2 (fun t => t)
        (fun a b t => a + (b - a) * t) [] =
      [.readDesired, .write (.px 2), .write (.px 1), .lock, .write (.px 2),
        .release] ∧
    tweenSizeTrace (.auto, .px 3) (.auto, .px 2) (1, 1) (2, 2) (fun t => t)
        (fun a b t => (a.1 + (b.1 - a.1) * t, a.2 + (b.2 - a.2) * t)) [] =
      [.readDesired, .write (.auto, .px 2), .write (.px 1, .px 1), .lock,
        .release, .write (.auto, .px 2)] ∧
    tweenSizeTrace (.auto, .auto) (.px 100, .px 100) (50, 50) (0, 0)
        (fun t => t) (fun _ b _ => b) [1] =
      [.readDesired, .write (.px 50, .px 50), .lock,
        .write (.px 100, .px 100), .release, .write (.px 100, .px 100)] := by
  refine ⟨?_, ?_, ?_⟩
  · have h := tween_lock_terminal_order.1 .auto (.px 2) 1 2 (fun t => t)
      (fun a b t => a + (b - a) * t) [] rfl
    simpa using h
  · have h := tween_lock_terminal_order.2.2.1 (.auto, .px 3) (.auto, .px 2)
      (1, 1) (2, 2) (fun t => t)
      (fun a b t => (a.1 + (b.1 - a.1) * t, a.2 + (b.2 - a.2) * t)) []
      rfl rfl
    simpa [pxPair] using h
  · have h := tween_lock_terminal_order.2.2.2 (.auto, .auto)
      (.px 100, .px 100) (50, 50) (0, 0) (fun t => t) (fun _ b _ => b) [1]
      rfl rfl
    simpa [pxPair, Length.num] using h

/-- C2: a width or height tween whose lock condition holds calls `lockSize`
exactly once and `releaseSize` exactly once (and neither when the condition
fails), for both `tweenWidth` and `tweenHeight`; every completed tween trace
leaves `sizeLockCounter` at its prior value; and any interleaving
(permutation of the concatenation) of two completed width-tween traces
contending for the same cell also returns the counter to its prior value. -/
theorem sizeLock_refcount :
    (∀ (desired value : Length) (rs rt : ℚ) (tf : ℚ → ℚ)
        (f : ℚ → ℚ → ℚ → ℚ) (frames : List ℚ),
      sizeTweenLock desired value = true →
      countLocks (tweenWidthTrace desired value rs rt tf f frames) = 1 ∧
      countReleases (tweenWidthTrace desired value rs rt tf f frames) = 1) ∧
    (∀ (desired value : Length) (rs rt : ℚ) (tf : ℚ → ℚ)
        (f : ℚ → ℚ → ℚ → ℚ) (frames : List ℚ),
      sizeTweenLock desired value = true →
      countLocks (tweenHeightTrace desired value rs rt tf f frames) = 1 ∧
      countReleases (tweenHeightTrace desired value rs rt tf f frames) = 1) ∧
    (∀ (desired value : Length) (rs rt : ℚ) (tf : ℚ → ℚ)
        (f : ℚ → ℚ → ℚ → ℚ) (frames : List ℚ),
      sizeTweenLock desired value = false →
      countLocks (tweenWidthTrace desired value rs rt tf f frames) = 0 ∧
      countReleases (tweenWidthTrace desired value rs rt tf f frames) = 0) ∧
    (∀ (desired value : Length) (rs rt : ℚ) (tf : ℚ → ℚ)
        (f : ℚ → ℚ → ℚ → ℚ) (frames : List ℚ),
      sizeTweenLock desired value = false →
      countLocks (tweenHeightTrace desired value rs rt tf f frames) = 0 ∧
      countReleases (tweenHeightTrace desired value rs rt tf f frames) = 0) ∧
    (∀ (c : ℤ) (desired value : Length) (rs rt : ℚ) (tf : ℚ → ℚ)
        (f : ℚ → ℚ → ℚ → ℚ) (frames : List ℚ),
      runLockCounter c (tweenWidthTrace desired value rs rt tf f frames) = c ∧
      runLockCounter c (tweenHeightTrace desired value rs rt tf f frames) =
        c) ∧
    (∀ (c : ℤ) (t : List (TweenEvent Length))
        (d1 v1 : Length) (rs1 rt1 : ℚ) (tf1 : ℚ → ℚ)
        (f1 : ℚ → ℚ → ℚ → ℚ) (fr1 : List ℚ)
        (d2 v2 : Length) (rs2 rt2 : ℚ) (tf2 : ℚ → ℚ)
        (f2 : ℚ → ℚ → ℚ → ℚ) (fr2 : List ℚ),
      t.Perm (tweenWidthTrace d1 v1 rs1 rt1 tf1 f1 fr1 ++
        tweenWidthTrace d2 v2 rs2 rt2 tf2 f2 fr2) →
      runLockCounter c t = c) := by
  have hsum : ∀ (desired value : Length) (rs rt : ℚ) (tf : ℚ → ℚ)
      (f : ℚ → ℚ → ℚ → ℚ) (frames : List ℚ),
      ((tweenWidthTrace desired value rs rt tf f frames).map lockDelta).sum =
        0 := by
    intro desired value rs rt tf f frames
    cases h : sizeTweenLock desired value <;>
      simp [tweenWidthTrace, h, lockDelta, sum_lockDelta_writes]
  have hsumH : ∀ (desired value : Length) (rs rt : ℚ) (tf : ℚ → ℚ)
      (f : ℚ → ℚ → ℚ → ℚ) (frames : List ℚ),
      ((tweenHeightTrace desired value rs rt tf f frames).map lockDelta).sum =
        0 := by
    intro desired value rs rt tf f frames
    cases h : sizeTweenLock desired value <;>
      simp [tweenHeightTrace, h, lockDelta, sum_lockDelta_writes]
  refine ⟨?_, ?_, ?_, ?_, ?_, ?_⟩
  · intro desired value rs rt tf f frames h
    constructor <;>
      simp [countLocks, countReleases, tweenWidthTrace, h,
        List.filter_map, List.filter_append]
  · intro desired value rs rt tf f frames h
    constructor <;>
      simp [countLocks, countReleases, tweenHeightTrace, h,
        List.filter_map, List.filter_append]
  · intro desired value rs rt tf f frames h
    constructor <;>
      simp [countLocks, countReleases, tweenWidthTrace, h,
        List.filter_map, List.filter_append]
  · intro desired value rs rt tf f frames h
    constructor <;>
      simp [countLocks, countReleases, tweenHeightTrace, h,
        List.filter_map, List.filter_append]
  · intro c desired value rs rt tf f frames
    exact ⟨by rw [runLockCounter_eq, hsum]; ring,
      by rw [runLockCounter_eq, hsumH]; ring⟩
  · intro c t d1 v1 rs1 rt1 tf1 f1 fr1 d2 v2 rs2 rt2 tf2 f2 fr2 hperm
    rw [runLockCounter_eq]
    have hmap := (hperm.map lockDelta).sum_eq
    rw [List.map_append, List.sum_append,
      hsum d1 v1 rs1 rt1 tf1 f1 fr1, hsum d2 v2 rs2 rt2 tf2 f2 fr2] at hmap
    rw [hmap]
    ring

/-- C2 witness: one locked auto-width tween and one locked auto-height
tween each lock and release exactly once; a single tween and an interleaving
of two width tweens both restore `sizeLockCounter` to its prior value. -/
theorem sizeLock_refcount_witness :
    countLocks (tweenWidthTrace .auto (.px 4) 1 4 (fun t => t)
      (fun a b t => a + (b - a) * t) []) = 1 ∧
    countReleases (tweenWidthTrace .auto (.px 4) 1 4 (fun t => t)
      (fun a b t => a + (b - a) * t) []) = 1 ∧
    countLocks (tweenHeightTrace .auto (.px 4) 1 4 (fun t => t)
      (fun a b t => a + (b - a) * t) []) = 1 ∧
    countReleases (tweenHeightTrace .auto (.px 4) 1 4 (fun t => t)
      (fun a b t => a + (b - a) * t) []) = 1 ∧
    runLockCounter 0 (tweenWidthTrace .auto (.px 4) 1 4 (fun t => t)
      (fun a b t => a + (b - a) * t) []) = 0 ∧
    runLockCounter 2 (tweenWidthTrace .auto (.px 4) 1 4 (fun t => t)
        (fun a b t => a + (b - a) * t) [] ++
      tweenWidthTrace (.px 3) .auto 3 5 (fun t => t)
        (fun a b t => a + (b - a) * t) [1]) = 2 :=
  ⟨(sizeLock_refcount.1 .auto (.px 4) 1 4 _ _ [] (by decide)).1,
    (sizeLock_refcount.1 .auto (.px 4) 1 4 _ _ [] (by decide)).2,
    (sizeLock_refcount.2.1 .auto (.px 4) 1 4 _ _ [] (by decide)).1,
    (sizeLock_refcount.2.1 .auto (.px 4) 1 4 _ _ [] (by decide)).2,
    (sizeLock_refcount.2.2.2.2.1 0 .auto (.px 4) 1 4 _ _ []).1,
    sizeLock_refcount.2.2.2.2.2 2 _ .auto (.px 4) 1 4 (fun t => t)
      (fun a b t => a + (b - a) * t) [] (.px 3) .auto 3 5 (fun t => t)
      (fun a b t => a + (b - a) * t) [1] (List.Perm.refl _)⟩

/-! ## Theorems about `applyFlex`, `requestLayoutUpdate`, `moveOffset` -/

/-- C3: while `sizeLockCounter` is positive, `applyFlex` forces flex grow and
shrink to `0`, suppressing the natural flex derivation and pinning the
explicitly written size; exactly when the counter is back to zero (all locks
released, and more generally whenever it is not positive) the declared
`grow()` / `shrink()` factors are applied again. -/
theorem sizeLock_suppresses_flex (s : FlexState) :
    (0 < s.sizeLockCounter →
      (applyFlex s).flexGrow = 0 ∧ (applyFlex s).flexShrink = 0) ∧
    (s.sizeLockCounter = 0 →
      (applyFlex s).flexGrow = s.grow ∧ (applyFlex s).flexShrink = s.shrink) ∧
    (¬0 < s.sizeLockCounter →
      (applyFlex s).flexGrow = s.grow ∧
        (applyFlex s).flexShrink = s.shrink) := by
  refine ⟨fun h => ⟨?_, ?_⟩, fun h => ⟨?_, ?_⟩, fun h => ⟨?_, ?_⟩⟩ <;>
    simp [applyFlex, h]

/-- C3 witness: one lock holder pins grow and shrink to zero; at counter
zero the declared factors (grow 2, shrink 3) come back. -/
theorem sizeLock_suppresses_flex_witness :
    ((applyFlex
      { isLayoutRootB := false, desired := (.auto, .auto), minWidth := .auto
        maxWidth := .auto, minHeight := .auto, maxHeight := .auto
        ratioValue := none, margin := ⟨0, 0, 0, 0⟩, padding := ⟨0, 0, 0, 0⟩
        direction := .row, basis := .auto, wrap := .nowrap
        justifyContent := .start, alignContent := .normal
        alignItems := .stretch, alignSelf := .auto, gap := (0, 0)
        grow := 2, shrink := 3, sizeLockCounter := 1 }).flexGrow = 0 ∧
      (applyFlex
      { isLayoutRootB := false, desired := (.auto, .auto), minWidth := .auto
        maxWidth := .auto, minHeight := .auto, maxHeight := .auto
        ratioValue := none, margin := ⟨0, 0, 0, 0⟩, padding := ⟨0, 0, 0, 0⟩
        direction := .row, basis := .auto, wrap := .nowrap
        justifyContent := .start, alignContent := .normal
        alignItems := .stretch, alignSelf := .auto, gap := (0, 0)
        grow := 2, shrink := 3, sizeLockCounter := 1 }).flexShrink = 0) ∧
    ((applyFlex
      { isLayoutRootB := false, desired := (.auto, .auto), minWidth := .auto
        maxWidth := .auto, minHeight := .auto, maxHeight := .auto
        ratioValue := none, margin := ⟨0, 0, 0, 0⟩, padding := ⟨0, 0, 0, 0⟩
        direction := .row, basis := .auto, wrap := .nowrap
        justifyContent := .start, alignContent := .normal
        alignItems := .stretch, alignSelf := .auto, gap := (0, 0)
        grow := 2, shrink := 3, sizeLockCounter := 0 }).flexGrow = 2 ∧
      (applyFlex
      { isLayoutRootB := false, desired := (.auto, .auto), minWidth := .auto
        maxWidth := .auto, minHeight := .auto, maxHeight := .auto
        ratioValue := none, margin := ⟨0, 0, 0, 0⟩, padding := ⟨0, 0, 0, 0⟩
        direction := .row, basis := .auto, wrap := .nowrap
        justifyContent := .start, alignContent := .normal
        alignItems := .stretch, alignSelf := .auto, gap := (0, 0)
        grow := 2, shrink := 3, sizeLockCounter := 0 }).flexShrink = 3) :=
  ⟨(sizeLock_suppresses_flex _).1 (by norm_num),
    (sizeLock_suppresses_flex _).2.1 rfl⟩

/-- A node with no parent transform is always a layout root. -/
theorem isLayoutRoot_nil (m : Option Bool) : isLayoutRoot m [] = true := by
  simp [isLayoutRoot]

/-- The Yoga solver is invoked exactly once per request, at the depth of the
nearest layout root (generalized over the depth accumulator). -/
theorem requestLayoutUpdateAux_calc :
    ∀ (chain : LayoutChain) (d : ℕ), chain ≠ [] →
      solverCalls (requestLayoutUpdateAux chain d) = 1 ∧
      LayoutUpdateEvent.calculateLayout (d + nearestRootDepth chain) ∈
        requestLayoutUpdateAux chain d ∧
      ∀ d', LayoutUpdateEvent.calculateLayout d' ∈
        requestLayoutUpdateAux chain d → d' = d + nearestRootDepth chain := by
  intro chain
  induction chain with
  | nil => intro d h; exact absurd rfl h
  | cons m rest ih =>
      intro d _
      by_cases hroot : isLayoutRoot m rest = true
      · refine ⟨?_, ?_, ?_⟩
        · cases rest <;>
            simp [requestLayoutUpdateAux, hroot, solverCalls]
        · cases rest <;>
            simp [requestLayoutUpdateAux, hroot, nearestRootDepth]
        · intro d' hd'
          cases rest <;>
            simp [requestLayoutUpdateAux, hroot, nearestRootDepth] at hd' ⊢ <;>
            omega
      · have hfalse : isLayoutRoot m rest = false := by
          simpa using hroot
        have hne : rest ≠ [] := by
          intro hrest
          rw [hrest] at hfalse
          simp [isLayoutRoot_nil] at hfalse
        have hstep : requestLayoutUpdateAux (m :: rest) d =
            requestLayoutUpdateAux rest (d + 1) := by
          simp [requestLayoutUpdateAux, hfalse]
        obtain ⟨h1, h2, h3⟩ := ih (d + 1) hne
        rw [hstep]
        have hdepth : d + nearestRootDepth (m :: rest) =
            (d + 1) + nearestRootDepth rest := by
          simp [nearestRootDepth, hfalse]
          omega
        exact ⟨h1, hdepth ▸ h2, fun d' hd' => hdepth ▸ h3 d' hd'⟩

/-- C4: a layout-update request on a node that is not a layout root is
delegated unchanged to its parent transform; along any ancestor chain the
external solver (`yoga.calculateLayout`) runs exactly once, at the nearest
layout root; and a `@computed()` cell invokes its derivation once on a cold
read and not at all on a cached read, so the resolved geometry is reused
until invalidation clears the cache. -/
theorem requestLayoutUpdate_root_solves :
    (∀ (m : Option Bool) (rest : LayoutChain) (d : ℕ),
      isLayoutRoot m rest = false →
      requestLayoutUpdateAux (m :: rest) d =
        requestLayoutUpdateAux rest (d + 1)) ∧
    (∀ chain : LayoutChain, chain ≠ [] →
      solverCalls (requestLayoutUpdate chain) = 1 ∧
      LayoutUpdateEvent.calculateLayout (nearestRootDepth chain) ∈
        requestLayoutUpdate chain ∧
      ∀ d', LayoutUpdateEvent.calculateLayout d' ∈
        requestLayoutUpdate chain → d' = nearestRootDepth chain) ∧
    (∀ (α : Type) (derive : α),
      readComputed none derive = (derive, some derive, 1) ∧
      readComputed (some derive) derive = (derive, some derive, 0)) := by
  refine ⟨?_, ?_, ?_⟩
  · intro m rest d h
    simp [requestLayoutUpdateAux, h]
  · intro chain h
    have := requestLayoutUpdateAux_calc chain 0 h
    simpa [requestLayoutUpdate] using this
  · intro α derive
    exact ⟨rfl, rfl⟩

/-- C4 witness: a two-node chain of enabled layouts delegates from the child
to the root, the solver runs once at depth 1, and a cold-then-cached pair of
computed reads derives exactly once. -/
theorem requestLayoutUpdate_root_solves_witness :
    requestLayoutUpdateAux [some true, some true] 0 =
      requestLayoutUpdateAux [some true] 1 ∧
    solverCalls (requestLayoutUpdate [some true, some true]) = 1 ∧
    LayoutUpdateEvent.calculateLayout 1 ∈
      requestLayoutUpdate [some true, some true] ∧
    readComputed none (5 : ℕ) = (5, some 5, 1) ∧
    readComputed (some 5) (5 : ℕ) = (5, some 5, 0) :=
  ⟨requestLayoutUpdate_root_solves.1 (some true) [some true] 0 (by decide),
    (requestLayoutUpdate_root_solves.2.1 [some true, some true]
      (by simp)).1,
    by
      have h := (requestLayoutUpdate_root_solves.2.1 [some true, some true]
        (by simp)).2.1
      simpa [nearestRootDepth, isLayoutRoot, layoutEnabled] using h,
    (requestLayoutUpdate_root_solves.2.2 ℕ 5).1,
    (requestLayoutUpdate_root_solves.2.2 ℕ 5).2⟩

/-- C9: `moveOffset(o')` writes `o'` into the offset signal and sets the
position signal to `p + o'·(s/2) − o·(s/2)`; the origin of the node's
offset-adjusted box in parent space is unchanged. -/
theorem moveOffset_preserves_placement (st : MoveState) (o : Vec2Q) :
    (moveOffset st o).offset = o ∧
    (moveOffset st o).computedSize = st.computedSize ∧
    (moveOffset st o).position =
      vSub (vAdd st.position (vMul o (vScale (1 / 2) st.computedSize)))
        (vMul st.offset (vScale (1 / 2) st.computedSize)) ∧
    renderedOrigin (moveOffset st o) = renderedOrigin st := by
  refine ⟨rfl, rfl, rfl, ?_⟩
  unfold renderedOrigin moveOffset
  simp only [vAdd, vSub, vMul, vScale]
  split_ifs with h1 h2 h2 <;>
    first
      | (obtain ⟨ho1, ho2⟩ := Prod.mk.injEq .. ▸ h1
         obtain ⟨hf1, hf2⟩ := Prod.mk.injEq .. ▸ h2
         simp only [Prod.ext_iff]
         constructor <;> simp [ho1, ho2, hf1, hf2])
      | (simp only [Prod.ext_iff]
         constructor <;> simp_all [Prod.ext_iff] <;> ring)

/-! ## Theorems about `TxtLeaf` line wrapping -/

/-- The wrapping loop of `draw` and the `desiredLines` loop keep identical
`x` / pending-width state and wrap at the same nodes: the fold states stay in
lockstep, and the wrap counter of `draw` advances exactly with the line
counter of `desiredLines`. -/
theorem wrap_fold_agree (maxWidth lineHeight : ℚ) :
    ∀ (nodes : List TextNode) (s : DrawState) (t : ℚ × ℚ × ℕ),
      s.x = t.1 → s.w = t.2.1 →
      (nodes.foldl (drawStep maxWidth lineHeight) s).x =
          (nodes.foldl (desiredLinesStep maxWidth) t).1 ∧
        (nodes.foldl (drawStep maxWidth lineHeight) s).w =
          (nodes.foldl (desiredLinesStep maxWidth) t).2.1 ∧
        (nodes.foldl (drawStep maxWidth lineHeight) s).wraps + t.2.2 =
          (nodes.foldl (desiredLinesStep maxWidth) t).2.2 + s.wraps := by
  intro nodes
  induction nodes with
  | nil =>
      intro s t hx hw
      exact ⟨hx, hw, Nat.add_comm _ _⟩
  | cons n ns ih =>
      intro s t hx hw
      have hstep :
          (drawStep maxWidth lineHeight s n).x =
            (desiredLinesStep maxWidth t n).1 ∧
          (drawStep maxWidth lineHeight s n).w =
            (desiredLinesStep maxWidth t n).2.1 ∧
          (drawStep maxWidth lineHeight s n).wraps + t.2.2 =
            (desiredLinesStep maxWidth t n).2.2 + s.wraps := by
        simp only [drawStep, desiredLinesStep, hx, hw]
        split_ifs <;> simp [hx, hw] <;> omega
      obtain ⟨h1, h2, h3⟩ :=
        ih (drawStep maxWidth lineHeight s n) (desiredLinesStep maxWidth t n)
          hstep.1 hstep.2.1
      refine ⟨h1, h2, ?_⟩
      simp only [List.foldl_cons]
      omega

/-- The trailing `drawText` of `draw` (for leftover pending content) does not
change the wrap counter. -/
theorem drawRun_wraps (nodes : List TextNode) (maxWidth lineHeight : ℚ) :
    (drawRun nodes maxWidth lineHeight).wraps =
      (nodes.foldl (drawStep maxWidth lineHeight)
        { x := 0, y := 0, w := 0, content := "", drawn := [],
          wraps := 0 }).wraps := by
  simp only [drawRun]
  split_ifs <;> rfl

/-- C10: for every sequence of measured text nodes and every available
width, the number of lines produced by the greedy wrapping loop of
`TxtLeaf.draw` equals the value computed by the `desiredLines` function that
`TxtLeaf.updateLayout` reports to the layout solver. -/
theorem drawLines_eq_desiredLines (nodes : List TextNode)
    (maxWidth lineHeight : ℚ) :
    drawLines nodes maxWidth lineHeight = desiredLines nodes maxWidth := by
  unfold drawLines desiredLines
  rw [drawRun_wraps]
  have h := (wrap_fold_agree maxWidth lineHeight nodes
    { x := 0, y := 0, w := 0, content := "", drawn := [], wraps := 0 }
    ((0 : ℚ), (0 : ℚ), 1) rfl rfl).2.2
  simpa using h

end MotionCanvas
